import Mathlib

/- Shallow embedding of the Geofence Admission Engine of `src/app/main.py`
   (FastAPI endpoints `create_geofence`, `manual_deactivate_geofence`,
   `record_attendance`).

   Modelling conventions:
   * Datetimes are minutes since an epoch, as integers.  A stored datetime
     is a UTC instant.  A submitted (naive) datetime carries its civil
     reading plus the time-zone info the client attached, which
     `datetime.replace(tzinfo=...)` discards.
   * Coordinates and the radius are rationals (the claims never depend on
     float rounding).
   * The SQLAlchemy session is a record of three tables (lists); a query
     `filter(...).first()` is `List.find?`; a raised `HTTPException` is the
     `.error` branch of `Except`, which leaves the store untouched (an
     exception aborts the request before `db.commit()` persists anything).
   * `generate_alphanumeric_code` and `check_user_in_circular_geofence`
     live in `app/utils/algorithms.py`, which is not part of the sources;
     they are passed as parameters (`initial_code`, `isWithin`), since no
     claim depends on their internals, only on how `main.py` uses them.
   * The `try ... except Exception: raise HTTPException(500)` block around
     `db.commit()` is modelled by a `CommitOutcome` parameter: the generic
     handler maps every storage exception, an `IntegrityError` included,
     to the opaque 500 response. -/

/-- A row of the `users` table; only the columns `record_attendance` reads. -/
structure User where
  user_matric : String
  username : String
  role : String
deriving Repr, DecidableEq

/-- A row of the `geofences` table, as built by `create_geofence`. -/
structure Geofence where
  fence_code : String
  name : String
  creator_matric : String
  latitude : Rat
  longitude : Rat
  radius : Rat
  fence_type : String
  start_time : Int
  end_time : Int
  status : String
  time_created : Int
deriving Repr, DecidableEq

/-- A row of the `attendance_records` table, as built by `record_attendance`. -/
structure AttendanceRecord where
  user_matric : String
  fence_code : String
  geofence_name : String
  timestamp : Int
  matric_fence_code : String
deriving Repr, DecidableEq

/-- The durable state behind the SQLAlchemy session. -/
structure DB where
  users : List User
  geofences : List Geofence
  records : List AttendanceRecord
deriving Repr, DecidableEq

/-- The calendar date of a stored UTC instant, `func.date(column)`:
the day number containing the minute. -/
def dateOfMinutes (t : Int) : Int := Int.fdiv t 1440

/-- The distinct `HTTPException`s raised by `record_attendance`
(status code and detail string in the comments). -/
inductive AdmissionError where
  /-- 404 "User not found" -/
  | UserNotFound
  /-- 404 "Invalid geofence code" -/
  | InvalidCode
  /-- 404 "Geofence is not open for attendance" -/
  | FenceNotOpen
  /-- 400 "User has already signed attendance for this class" -/
  | AlreadyRecorded
  /-- 400 "User is not within geofence, attendance not recorded" -/
  | OutsideGeofence
  /-- 500 "Internal Server Error" -/
  | InternalServerError
deriving Repr, DecidableEq

/-- What `db.commit()` does inside the final `try` block: succeed, raise an
`IntegrityError` (uniqueness violation on `matric_fence_code`), or raise
some other storage exception. -/
inductive CommitOutcome where
  | success
  | integrityError
  | otherFailure
deriving Repr, DecidableEq

/-- Python's `str.lower()` on one character (the code's strings are ASCII). -/
def lowerChar (c : Char) : Char :=
  if 'A' ≤ c ∧ c ≤ 'Z' then Char.ofNat (c.toNat + 32) else c

/-- Python's `str.lower()`: lower-case every character. -/
def pyLower (s : String) : String := ⟨s.data.map lowerChar⟩

/-- The `AttendanceRecord` row built by the final block of
`record_attendance` for the found user and fence. -/
def builtRecord (db_user : User) (geofence : Geofence) (fence_code : String)
    (now : Int) : AttendanceRecord :=
  { user_matric := db_user.user_matric
    fence_code := fence_code
    geofence_name := geofence.name
    timestamp := now
    matric_fence_code := db_user.user_matric ++ geofence.fence_code }

/-- `POST /record_attendance/` of `src/app/main.py` (`record_attendance`):
user-existence check, fence lookup filtered on `fence_code == code` and
`status == "active"`, the (dead) status re-check, the duplicate check on
`matric_fence_code`, the containment check, then persist-and-commit. -/
def record_attendance (isWithin : Rat → Rat → Geofence → Bool)
    (commit : CommitOutcome) (now : Int)
    (fence_code : String) (lat long : Rat) (user_matric : String)
    (db : DB) : Except AdmissionError (DB × String) :=
  match db.users.find? (fun u => u.user_matric == user_matric) with
  | none => .error .UserNotFound
  | some db_user =>
    match db.geofences.find?
        (fun g => g.fence_code == fence_code && g.status == "active") with
    | none => .error .InvalidCode
    | some geofence =>
      let matric_fence_code := db_user.user_matric ++ geofence.fence_code
      if pyLower geofence.status != "active" then
        .error .FenceNotOpen
      else
        match db.records.find?
            (fun r => r.matric_fence_code == matric_fence_code) with
        | some _ => .error .AlreadyRecorded
        | none =>
          if ! isWithin lat long geofence then
            .error .OutsideGeofence
          else
            match commit with
            | .success =>
              .ok ({ db with records := db.records ++
                      [builtRecord db_user geofence fence_code now] },
                   "Attendance recorded successfully")
            | _ => .error .InternalServerError

/-- The store state after the request: an `HTTPException` aborts the unit of
work before anything is committed, so on an error the state is unchanged. -/
def finalDB (db : DB) (r : Except AdmissionError (DB × String)) : DB :=
  match r with
  | .ok (db2, _) => db2
  | .error _ => db

/-- The derived status of the specification, section 4.2: `active` iff the
current instant lies in `[start_time, end_time]` and no manual deactivation
has occurred (a persisted `inactive` is the manual-deactivation override);
`scheduled` before the window, `inactive` after it or once deactivated. -/
def derivedStatus (g : Geofence) (now : Int) : String :=
  if g.status = "inactive" then "inactive"
  else if now < g.start_time then "scheduled"
  else if now ≤ g.end_time then "active"
  else "inactive"

/-- A datetime as submitted by the client: its naive civil reading (minutes)
plus whatever `tzinfo` the client attached (an offset from UTC in minutes,
or none when naive).  `replace(tzinfo=...)` ignores this attached zone. -/
structure SubmittedDT where
  civil : Int
  tzOffset : Option Int
deriving Repr, DecidableEq

/-- The fixed organization zone `ZoneInfo("Africa/Lagos")`: UTC+1, no DST,
so a constant offset of 60 minutes. -/
def lagosOffsetMinutes : Int := 60

/-- `dt.replace(tzinfo=ZoneInfo("Africa/Lagos")).astimezone(ZoneInfo("UTC"))`:
the civil reading is kept, the submitted zone is discarded, the instant is
the Lagos civil reading minus the Lagos offset. -/
def toUtcViaLagos (dt : SubmittedDT) : Int :=
  dt.civil - lagosOffsetMinutes

/-- The `GeofenceCreate` request body (`app/schemas/geofence.py`). -/
structure GeofenceCreate where
  name : String
  latitude : Rat
  longitude : Rat
  radius : Rat
  fence_type : String
  start_time : SubmittedDT
  end_time : SubmittedDT
deriving Repr, DecidableEq

/-- The distinct `HTTPException`s raised by `create_geofence`. -/
inductive CreateError where
  /-- 400 "Geofence with this name already exists for today" -/
  | DuplicateFenceWindow
  /-- 400 "Invalid duration for geofence. Please adjust duration and try again." -/
  | InvalidDuration
  /-- 400 "End time cannot be in the past." -/
  | EndTimeInPast
  /-- 400, the spec's `InvalidInput` for the request body (see
  `validGeofenceInput`) -/
  | InvalidInput
  /-- 500 "Internal Server Error." -/
  | InternalServerError
deriving Repr, DecidableEq

/-- The `Geofence` row built by `create_geofence` for a request body, the
creator, the (already lower-cased) code and the creation instant; its
initial status is computed from the instant of creation. -/
def builtFence (geofence : GeofenceCreate) (user_matric code : String)
    (now : Int) : Geofence :=
  let start_time_utc := toUtcViaLagos geofence.start_time
  let end_time_utc := toUtcViaLagos geofence.end_time
  { fence_code := code
    name := geofence.name
    creator_matric := user_matric
    latitude := geofence.latitude
    longitude := geofence.longitude
    radius := geofence.radius
    fence_type := geofence.fence_type
    start_time := start_time_utc
    end_time := end_time_utc
    status :=
      if start_time_utc ≤ now ∧ now ≤ end_time_utc then "active"
      else "scheduled"
    time_created := now }

/-- `POST /create_geofences/` of `src/app/main.py` (`create_geofence`):
normalize both submitted times to UTC via the Lagos zone, reject a
same-name same-date fence, reject `start >= end`, reject an end time in the
past, then lower-case the generated code and persist the fence with its
initial status computed from `now`.  `initial_code` stands for the result
of `generate_alphanumeric_code()`; `commitOk` is the final
`try ... except Exception` around `db.commit()`. -/
def create_geofence (geofence : GeofenceCreate) (user_matric : String)
    (initial_code : String) (commitOk : Bool) (now : Int)
    (db : DB) : Except CreateError (DB × String × String) :=
  let start_time_utc := toUtcViaLagos geofence.start_time
  let end_time_utc := toUtcViaLagos geofence.end_time
  match db.geofences.find?
      (fun g => g.name == geofence.name &&
        dateOfMinutes g.start_time == dateOfMinutes start_time_utc) with
  | some _ => .error .DuplicateFenceWindow
  | none =>
    if start_time_utc ≥ end_time_utc then
      .error .InvalidDuration
    else if end_time_utc < now then
      .error .EndTimeInPast
    else if commitOk then
      let code := pyLower initial_code
      .ok ({ db with geofences := db.geofences ++
              [builtFence geofence user_matric code now] },
           code, geofence.name)
    else .error .InternalServerError

/-- Modelled from the spec: the request-body validation of `GeofenceCreate`
(`app/schemas/geofence.py`, not among the sources).  Per sections 6 and 7 the
radius must be a positive number and the center coordinates in range
(|lat| <= 90, |lon| <= 180); anything else is the `InvalidInput` rejection. -/
def validGeofenceInput (g : GeofenceCreate) : Bool :=
  g.radius > 0 && |g.latitude| ≤ 90 && |g.longitude| ≤ 180

/-- The creation endpoint as reached by a request body: the (spec-modelled)
schema validation in front of `create_geofence` of `src/app/main.py`. -/
def create_geofence_endpoint (geofence : GeofenceCreate) (user_matric : String)
    (initial_code : String) (commitOk : Bool) (now : Int)
    (db : DB) : Except CreateError (DB × String × String) :=
  if ! validGeofenceInput geofence then .error .InvalidInput
  else create_geofence geofence user_matric initial_code commitOk now db

/-- The store state after a creation request (errors commit nothing). -/
def finalDBCreate (db : DB) (r : Except CreateError (DB × String × String)) : DB :=
  match r with
  | .ok (db2, _, _) => db2
  | .error _ => db

/-- The distinct `HTTPException`s raised by `manual_deactivate_geofence`. -/
inductive DeactivateError where
  /-- 404 "Geofence doesn't exist or not found for specified date" -/
  | NotFound
  /-- 400 "Geofence is already inactive" -/
  | AlreadyInactive
  /-- 401 "You don't have permission to delete this class as you are not the creator." -/
  | PermissionDenied
  /-- 500 "Error deactivating geofence. ..." -/
  | InternalServerError
deriving Repr, DecidableEq

/-- Set the status of the first fence matching name+date to "inactive"
(the ORM mutation `geofence.status = "inactive"` on the row `.first()`
returned). -/
def deactivateFirst (name : String) (date : Int) :
    List Geofence → List Geofence
  | [] => []
  | g :: gs =>
    if g.name == name && dateOfMinutes g.start_time == date then
      { g with status := "inactive" } :: gs
    else g :: deactivateFirst name date gs

/-- `PUT /manual_deactivate_geofence/` of `src/app/main.py`
(`manual_deactivate_geofence`): lookup by name and calendar date of
`start_time`, then the already-inactive check, then the creator check,
then the status mutation is committed. -/
def manual_deactivate_geofence (geofence_name : String) (date : Int)
    (user_matric : String) (db : DB) : Except DeactivateError (DB × String) :=
  match db.geofences.find?
      (fun g => g.name == geofence_name &&
        dateOfMinutes g.start_time == date) with
  | none => .error .NotFound
  | some geofence =>
    if geofence.status == "inactive" then
      .error .AlreadyInactive
    else if user_matric != geofence.creator_matric then
      .error .PermissionDenied
    else
      .ok ({ db with geofences := deactivateFirst geofence_name date db.geofences },
           "Successfully deactivated geofence")

/- Concrete fixtures used by the witnesses and counterexamples below. -/

/-- A student present in the `users` table. -/
def aliceUser : User :=
  { user_matric := "u1", username := "alice", role := "student" }

/-- A persisted fence whose stored status is "active". -/
def fenceActive : Geofence :=
  { fence_code := "abc123xy", name := "GEO101", creator_matric := "adminA"
    latitude := 0, longitude := 0, radius := 100, fence_type := "circle"
    start_time := 0, end_time := 1000, status := "active", time_created := 0 }

/-- A persisted fence whose stored status is "scheduled" although its time
window `[0, 1000]` is the same as `fenceActive`'s. -/
def fenceScheduled : Geofence :=
  { fenceActive with fence_code := "sch12345", status := "scheduled" }

/-- A persisted fence whose stored status is "inactive" (manually
deactivated by its creator "adminA"). -/
def fenceInactive : Geofence :=
  { fenceActive with fence_code := "ina12345", status := "inactive" }

/-- The record left by alice's successful check-in against `fenceActive`. -/
def dupRecord : AttendanceRecord :=
  { user_matric := "u1", fence_code := "abc123xy", geofence_name := "GEO101"
    timestamp := 10, matric_fence_code := "u1abc123xy" }

/-- Store with alice, the active fence, and her existing record. -/
def dbDup : DB := { users := [aliceUser], geofences := [fenceActive], records := [dupRecord] }

/-- Store with alice and the active fence but no records yet. -/
def dbNoDup : DB := { users := [aliceUser], geofences := [fenceActive], records := [] }

/-- Store with alice and only the stale "scheduled" fence. -/
def dbSched : DB := { users := [aliceUser], geofences := [fenceScheduled], records := [] }

/-- Store with alice and only the deactivated fence. -/
def dbInactive : DB := { users := [aliceUser], geofences := [fenceInactive], records := [] }

/-- The empty store. -/
def dbEmpty : DB := { users := [], geofences := [], records := [] }

/-- A creation request: window 10:00-20:00 civil Lagos time on day 0
(minutes 600 to 1200), valid geometry. -/
def reqGeo : GeofenceCreate :=
  { name := "GEO101", latitude := 0, longitude := 0, radius := 100
    fence_type := "circle", start_time := ⟨600, none⟩, end_time := ⟨1200, none⟩ }

/- Helper lemmas shared by the claim theorems. -/

/-- Unpacking a successful admission fence lookup: the found row carries the
requested code and the persisted status "active". -/
theorem find_active_spec {gs : List Geofence} {code : String} {g : Geofence}
    (h : gs.find? (fun x => x.fence_code == code && x.status == "active") = some g) :
    g.fence_code = code ∧ g.status = "active" := by
  have h2 := List.find?_some h
  simp only [Bool.and_eq_true, beq_iff_eq] at h2
  exact h2

/-- With persisted status "active" the re-check
`geofence.status.lower() != "active"` is false. -/
theorem pyLower_active_ne_false {s : String} (h : s = "active") :
    (pyLower s != "active") = false := by subst h; rfl

/-- Claim C10: an admission request checks the caller's identity against the
user store first and rejects with the 404 user-not-found error before the
fence-lookup, status, duplicate and containment gates run (the store past
`users`, the coordinates, the containment function and the commit outcome
are arbitrary). -/
theorem record_attendance_user_gate_first (isWithin : Rat → Rat → Geofence → Bool)
    (commit : CommitOutcome) (now : Int) (fence_code : String)
    (lat long : Rat) (um : String) (db : DB)
    (h : db.users.find? (fun u => u.user_matric == um) = none) :
    record_attendance isWithin commit now fence_code lat long um db
      = .error .UserNotFound := by
  simp [record_attendance, h]

/-- Witness for C10: an unknown caller is rejected as user-not-found even
though the fence exists, is active, and the caller stands inside it. -/
theorem record_attendance_user_gate_first_witness :
    record_attendance (fun _ _ _ => true) .success 500 "abc123xy" 0 0 "ghost" dbNoDup
      = .error .UserNotFound :=
  record_attendance_user_gate_first _ _ _ _ _ _ _ _ rfl

/-- Claim C2: when a record whose admission key equals
`user_identity ++ fence_code` already exists, the admission attempt is
rejected with AlreadyRecorded and the persisted record count is unchanged. -/
theorem record_attendance_duplicate_rejected
    (isWithin : Rat → Rat → Geofence → Bool) (commit : CommitOutcome)
    (now : Int) (code : String) (lat long : Rat) (um : String) (db : DB)
    (u : User) (g : Geofence) (r : AttendanceRecord)
    (hu : db.users.find? (fun x => x.user_matric == um) = some u)
    (hg : db.geofences.find?
      (fun x => x.fence_code == code && x.status == "active") = some g)
    (hr : db.records.find?
      (fun x => x.matric_fence_code == u.user_matric ++ g.fence_code) = some r) :
    record_attendance isWithin commit now code lat long um db
      = .error .AlreadyRecorded ∧
    (finalDB db (record_attendance isWithin commit now code lat long um db)).records.length
      = db.records.length := by
  have hst := (find_active_spec hg).2
  have h1 : record_attendance isWithin commit now code lat long um db
      = .error .AlreadyRecorded := by
    simp [record_attendance, hu, hg, pyLower_active_ne_false hst, hr]
  exact ⟨h1, by rw [h1]; rfl⟩

/-- Witness for C2: alice retries her recorded check-in; the retry is
rejected AlreadyRecorded and the store still holds exactly her record. -/
theorem record_attendance_duplicate_rejected_witness :
    record_attendance (fun _ _ _ => false) .success 500 "abc123xy" 0 0 "u1" dbDup
      = .error .AlreadyRecorded ∧
    (finalDB dbDup (record_attendance (fun _ _ _ => false) .success 500 "abc123xy" 0 0 "u1" dbDup)).records.length
      = dbDup.records.length :=
  record_attendance_duplicate_rejected _ _ _ _ _ _ _ _
    aliceUser fenceActive dupRecord rfl rfl rfl

/-- Claim C1, counterexample: the fence stored as "scheduled" has derived
status "active" at instant 500 (inside its window, never deactivated), yet
the admission is rejected — and with InvalidCode, not FenceNotOpen: the gate
reads the stale persisted status, not the derived one. -/
theorem record_attendance_stale_status_cex :
    derivedStatus fenceScheduled 500 = "active" ∧
    record_attendance (fun _ _ _ => true) .success 500 "sch12345" 0 0 "u1" dbSched
      = .error .InvalidCode ∧
    AdmissionError.InvalidCode ≠ AdmissionError.FenceNotOpen :=
  ⟨rfl, rfl, by decide⟩

/-- Claim C1 (amended): the status gate trusts the persisted status: the
lookup only matches rows whose stored status is "active", so a fence whose
persisted status differs is rejected with the same InvalidCode used for
unknown codes, and no admission request can ever receive FenceNotOpen (that
branch is dead code). -/
theorem record_attendance_persisted_status_gate (now : Int) (code : String)
    (lat long : Rat) (um : String) :
    (∀ (isWithin : Rat → Rat → Geofence → Bool) (commit : CommitOutcome)
        (db : DB) (u : User),
      db.users.find? (fun x => x.user_matric == um) = some u →
      db.geofences.find?
        (fun x => x.fence_code == code && x.status == "active") = none →
      record_attendance isWithin commit now code lat long um db
        = .error .InvalidCode) ∧
    (∀ (isWithin : Rat → Rat → Geofence → Bool) (commit : CommitOutcome)
        (db : DB),
      record_attendance isWithin commit now code lat long um db
        ≠ .error .FenceNotOpen) := by
  constructor
  · intro isWithin commit db u hu hg
    simp [record_attendance, hu, hg]
  · intro isWithin commit db
    cases hu : db.users.find? (fun x => x.user_matric == um) with
    | none => simp [record_attendance, hu]
    | some u =>
      cases hg : db.geofences.find?
          (fun x => x.fence_code == code && x.status == "active") with
      | none => simp [record_attendance, hu, hg]
      | some g =>
        have hst := (find_active_spec hg).2
        simp only [record_attendance, hu, hg, pyLower_active_ne_false hst,
          Bool.false_eq_true, if_false]
        cases hr : db.records.find?
            (fun x => x.matric_fence_code == u.user_matric ++ g.fence_code) with
        | some r => simp [hr]
        | none =>
          by_cases hiw : isWithin lat long g = true
          · simp only [hr, hiw, Bool.not_true, Bool.false_eq_true, if_false]
            cases commit <;> simp
          · simp [hr, hiw]

/-- Witness for C1 (amended): the deactivated fence's code is known, yet the
request gets InvalidCode. -/
theorem record_attendance_persisted_status_gate_witness :
    record_attendance (fun _ _ _ => true) .success 500 "ina12345" 0 0 "u1" dbInactive
      = .error .InvalidCode :=
  (record_attendance_persisted_status_gate 500 "ina12345" 0 0 "u1").1
    _ _ dbInactive aliceUser rfl rfl

/-- Claim C3, counterexample: every gate passes and the store reports a
uniqueness violation (IntegrityError) at commit time, yet the caller receives
the opaque 500 InternalServerError — not the AlreadyRecorded rejection of the
pre-commit duplicate check. -/
theorem record_attendance_commit_race_cex :
    record_attendance (fun _ _ _ => true) .integrityError 600 "abc123xy" 0 0 "u1" dbNoDup
      = .error .InternalServerError ∧
    AdmissionError.InternalServerError ≠ AdmissionError.AlreadyRecorded :=
  ⟨rfl, by decide⟩

/-- Claim C3 (amended): any storage exception raised at commit time — a
uniqueness violation on the admission key included — is caught by the
generic handler of `record_attendance` and surfaced as the opaque
InternalServerError, never as AlreadyRecorded. -/
theorem record_attendance_commit_failure_opaque
    (isWithin : Rat → Rat → Geofence → Bool) (commit : CommitOutcome)
    (now : Int) (code : String) (lat long : Rat) (um : String) (db : DB)
    (u : User) (g : Geofence)
    (hu : db.users.find? (fun x => x.user_matric == um) = some u)
    (hg : db.geofences.find?
      (fun x => x.fence_code == code && x.status == "active") = some g)
    (hr : db.records.find?
      (fun x => x.matric_fence_code == u.user_matric ++ g.fence_code) = none)
    (hiw : isWithin lat long g = true)
    (hc : commit ≠ .success) :
    record_attendance isWithin commit now code lat long um db
      = .error .InternalServerError := by
  have hst := (find_active_spec hg).2
  cases commit with
  | success => exact absurd rfl hc
  | integrityError =>
    simp [record_attendance, hu, hg, pyLower_active_ne_false hst, hr, hiw]
  | otherFailure =>
    simp [record_attendance, hu, hg, pyLower_active_ne_false hst, hr, hiw]

/-- Witness for C3 (amended): a non-uniqueness storage failure at commit
gets the same opaque InternalServerError. -/
theorem record_attendance_commit_failure_opaque_witness :
    record_attendance (fun _ _ _ => true) .otherFailure 600 "abc123xy" 0 0 "u1" dbNoDup
      = .error .InternalServerError :=
  record_attendance_commit_failure_opaque _ _ _ _ _ _ _ _ aliceUser fenceActive
    rfl rfl rfl rfl (by decide)

/-- Claim C5, counterexample: admin B asks to deactivate admin A's
already-deactivated fence; the answer is AlreadyInactive, not the
PermissionDenied the claim requires for every non-creator. -/
theorem manual_deactivate_order_cex :
    manual_deactivate_geofence "GEO101" 0 "adminB"
      { users := [], geofences := [fenceInactive], records := [] }
      = .error .AlreadyInactive ∧
    DeactivateError.AlreadyInactive ≠ DeactivateError.PermissionDenied :=
  ⟨rfl, by decide⟩

/-- Claim C5 (amended): the deactivation checks run in the order not-found,
already-inactive, permission: a fence already stored "inactive" yields
AlreadyInactive for every requester (a non-creator included); PermissionDenied
is returned exactly when the fence is found, is not already inactive, and the
requester differs from the creator. -/
theorem manual_deactivate_check_order (geofence_name : String) (date : Int)
    (um : String) (db : DB) :
    (db.geofences.find? (fun g => g.name == geofence_name &&
        dateOfMinutes g.start_time == date) = none →
      manual_deactivate_geofence geofence_name date um db = .error .NotFound) ∧
    (∀ g : Geofence,
      db.geofences.find? (fun g => g.name == geofence_name &&
        dateOfMinutes g.start_time == date) = some g →
      g.status = "inactive" →
      manual_deactivate_geofence geofence_name date um db
        = .error .AlreadyInactive) ∧
    (∀ g : Geofence,
      db.geofences.find? (fun g => g.name == geofence_name &&
        dateOfMinutes g.start_time == date) = some g →
      g.status ≠ "inactive" → um ≠ g.creator_matric →
      manual_deactivate_geofence geofence_name date um db
        = .error .PermissionDenied) := by
  refine ⟨fun h => ?_, fun g hg hst => ?_, fun g hg hst hperm => ?_⟩
  · simp [manual_deactivate_geofence, h]
  · simp [manual_deactivate_geofence, hg, hst]
  · simp [manual_deactivate_geofence, hg, hst, hperm]

/-- Witness for C5 (amended): admin B on admin A's still-active fence does
get PermissionDenied. -/
theorem manual_deactivate_check_order_witness :
    manual_deactivate_geofence "GEO101" 0 "adminB"
      { users := [], geofences := [fenceActive], records := [] }
      = .error .PermissionDenied :=
  (manual_deactivate_check_order "GEO101" 0 "adminB"
      { users := [], geofences := [fenceActive], records := [] }).2.2
    fenceActive rfl (by decide) (by decide)

/-- Claim C4: a creation request that passes the duplicate-name and
start<end checks stores initial status "active" when the creation instant
lies inside the normalized window and "scheduled" when it is before the
window's start; when the end time is already past, creation is rejected
with the end-time-in-the-past error and no fence is persisted. -/
theorem create_geofence_initial_status (g : GeofenceCreate) (um ic : String)
    (now : Int) (db : DB)
    (hdup : db.geofences.find? (fun x => x.name == g.name &&
      dateOfMinutes x.start_time
        == dateOfMinutes (toUtcViaLagos g.start_time)) = none)
    (hdur : toUtcViaLagos g.start_time < toUtcViaLagos g.end_time) :
    (toUtcViaLagos g.start_time ≤ now ∧ now ≤ toUtcViaLagos g.end_time →
      (builtFence g um (pyLower ic) now).status = "active" ∧
      create_geofence g um ic true now db =
        .ok ({ db with geofences :=
                db.geofences ++ [builtFence g um (pyLower ic) now] },
             pyLower ic, g.name)) ∧
    (now < toUtcViaLagos g.start_time →
      (builtFence g um (pyLower ic) now).status = "scheduled" ∧
      create_geofence g um ic true now db =
        .ok ({ db with geofences :=
                db.geofences ++ [builtFence g um (pyLower ic) now] },
             pyLower ic, g.name)) ∧
    (toUtcViaLagos g.end_time < now →
      create_geofence g um ic true now db = .error .EndTimeInPast ∧
      finalDBCreate db (create_geofence g um ic true now db) = db) := by
  have hge : ¬ (toUtcViaLagos g.start_time ≥ toUtcViaLagos g.end_time) :=
    not_le.mpr hdur
  refine ⟨fun h => ⟨?_, ?_⟩, fun h => ⟨?_, ?_⟩, fun h => ?_⟩
  · simp [builtFence, h.1, h.2]
  · have hnotpast : ¬ (toUtcViaLagos g.end_time < now) := not_lt.mpr h.2
    simp [create_geofence, hdup, hge, hnotpast]
  · rw [builtFence]
    simp only
    rw [if_neg (by omega)]
  · have hnotpast : ¬ (toUtcViaLagos g.end_time < now) := by omega
    simp [create_geofence, hdup, hge, hnotpast]
  · have h1 : create_geofence g um ic true now db = .error .EndTimeInPast := by
      simp [create_geofence, hdup, hge, h]
    exact ⟨h1, by rw [h1]; rfl⟩

/-- Witness for C4: the Lagos window 10:00-20:00 (UTC minutes 540-1140)
created at UTC minute 1000 is stored "active". -/
theorem create_geofence_initial_status_witness :
    (builtFence reqGeo "adminA" (pyLower "ABC123XY") 1000).status = "active" ∧
    create_geofence reqGeo "adminA" "ABC123XY" true 1000 dbEmpty =
      .ok ({ dbEmpty with geofences :=
              dbEmpty.geofences ++ [builtFence reqGeo "adminA" (pyLower "ABC123XY") 1000] },
           pyLower "ABC123XY", reqGeo.name) :=
  (create_geofence_initial_status reqGeo "adminA" "ABC123XY" 1000 dbEmpty
    rfl (by decide)).1 (by decide)

/-- Claim C7: a creation request whose radius is not positive or whose
center coordinates are out of range fails the (spec-modelled) input
validation with InvalidInput and persists nothing. -/
theorem create_geofence_invalid_input (g : GeofenceCreate) (um ic : String)
    (ok : Bool) (now : Int) (db : DB)
    (h : validGeofenceInput g = false) :
    create_geofence_endpoint g um ic ok now db = .error .InvalidInput ∧
    finalDBCreate db (create_geofence_endpoint g um ic ok now db) = db := by
  have h1 : create_geofence_endpoint g um ic ok now db = .error .InvalidInput := by
    simp [create_geofence_endpoint, h]
  exact ⟨h1, by rw [h1]; rfl⟩

/-- Witness for C7: a zero radius is rejected with InvalidInput and the
store is untouched. -/
theorem create_geofence_invalid_input_witness :
    create_geofence_endpoint { reqGeo with radius := 0 } "adminA" "ABC123XY" true 1000 dbEmpty
      = .error .InvalidInput ∧
    finalDBCreate dbEmpty
      (create_geofence_endpoint { reqGeo with radius := 0 } "adminA" "ABC123XY" true 1000 dbEmpty)
      = dbEmpty :=
  create_geofence_invalid_input _ _ _ _ _ _ (by decide)

/-- Claim C8: submitted civil times are interpreted in the fixed Lagos zone
and normalized to UTC before everything else: the outcome ignores whatever
zone info the administrator attached; a success stores the two UTC instants
(civil reading minus the Lagos offset); and the same-name-same-date check,
the start<end check and the end-in-the-past check each compare the UTC
conversions. -/
theorem create_geofence_utc_normalization (g : GeofenceCreate) (um ic : String)
    (ok : Bool) (now : Int) (db : DB) :
    (∀ tz1 tz2 : Option Int,
      create_geofence { g with start_time := ⟨g.start_time.civil, tz1⟩,
                               end_time := ⟨g.end_time.civil, tz2⟩ } um ic ok now db
        = create_geofence g um ic ok now db) ∧
    (∀ (db2 : DB) (c nm : String),
      create_geofence g um ic ok now db = .ok (db2, c, nm) →
      db2.geofences = db.geofences ++ [builtFence g um (pyLower ic) now] ∧
      (builtFence g um (pyLower ic) now).start_time
        = g.start_time.civil - lagosOffsetMinutes ∧
      (builtFence g um (pyLower ic) now).end_time
        = g.end_time.civil - lagosOffsetMinutes) ∧
    (create_geofence g um ic ok now db = .error .DuplicateFenceWindow ↔
      (db.geofences.find? (fun x => x.name == g.name &&
          dateOfMinutes x.start_time
            == dateOfMinutes (g.start_time.civil - lagosOffsetMinutes))).isSome) ∧
    (create_geofence g um ic ok now db = .error .InvalidDuration ↔
      db.geofences.find? (fun x => x.name == g.name &&
          dateOfMinutes x.start_time
            == dateOfMinutes (g.start_time.civil - lagosOffsetMinutes)) = none ∧
      g.end_time.civil - lagosOffsetMinutes
        ≤ g.start_time.civil - lagosOffsetMinutes) ∧
    (create_geofence g um ic ok now db = .error .EndTimeInPast ↔
      db.geofences.find? (fun x => x.name == g.name &&
          dateOfMinutes x.start_time
            == dateOfMinutes (g.start_time.civil - lagosOffsetMinutes)) = none ∧
      g.start_time.civil - lagosOffsetMinutes
        < g.end_time.civil - lagosOffsetMinutes ∧
      g.end_time.civil - lagosOffsetMinutes < now) := by
  refine ⟨fun tz1 tz2 => ?_, fun db2 c nm h => ?_, ?_, ?_, ?_⟩
  · simp [create_geofence, toUtcViaLagos, builtFence]
  · refine ⟨?_, rfl, rfl⟩
    simp only [create_geofence, toUtcViaLagos] at h
    cases hf : db.geofences.find? (fun x => x.name == g.name &&
        dateOfMinutes x.start_time
          == dateOfMinutes (g.start_time.civil - lagosOffsetMinutes)) with
    | some x => rw [hf] at h; simp at h
    | none =>
      rw [hf] at h
      by_cases h1 : g.start_time.civil - lagosOffsetMinutes
          ≥ g.end_time.civil - lagosOffsetMinutes
      · rw [if_pos h1] at h; simp at h
      · rw [if_neg h1] at h
        by_cases h2 : g.end_time.civil - lagosOffsetMinutes < now
        · rw [if_pos h2] at h; simp at h
        · rw [if_neg h2] at h
          cases ok with
          | false => simp at h
          | true =>
            simp only [if_true, Except.ok.injEq, Prod.mk.injEq] at h
            rw [← h.1]
  · simp only [create_geofence, toUtcViaLagos]
    cases hf : db.geofences.find? (fun x => x.name == g.name &&
        dateOfMinutes x.start_time
          == dateOfMinutes (g.start_time.civil - lagosOffsetMinutes)) with
    | some x => simp
    | none =>
      by_cases h1 : g.start_time.civil - lagosOffsetMinutes
          ≥ g.end_time.civil - lagosOffsetMinutes
      · rw [if_pos h1]; simp
      · rw [if_neg h1]
        by_cases h2 : g.end_time.civil - lagosOffsetMinutes < now
        · rw [if_pos h2]; simp
        · rw [if_neg h2]; cases ok <;> simp
  · simp only [create_geofence, toUtcViaLagos]
    cases hf : db.geofences.find? (fun x => x.name == g.name &&
        dateOfMinutes x.start_time
          == dateOfMinutes (g.start_time.civil - lagosOffsetMinutes)) with
    | some x => simp
    | none =>
      by_cases h1 : g.start_time.civil - lagosOffsetMinutes
          ≥ g.end_time.civil - lagosOffsetMinutes
      · rw [if_pos h1]; simp [ge_iff_le.mp h1]
      · rw [if_neg h1]
        have h1' : ¬ (g.end_time.civil - lagosOffsetMinutes
            ≤ g.start_time.civil - lagosOffsetMinutes) := fun hc => h1 hc
        by_cases h2 : g.end_time.civil - lagosOffsetMinutes < now
        · rw [if_pos h2]; simp [h1']
        · rw [if_neg h2]; cases ok <;> simp [h1']
  · simp only [create_geofence, toUtcViaLagos]
    cases hf : db.geofences.find? (fun x => x.name == g.name &&
        dateOfMinutes x.start_time
          == dateOfMinutes (g.start_time.civil - lagosOffsetMinutes)) with
    | some x => simp
    | none =>
      by_cases h1 : g.start_time.civil - lagosOffsetMinutes
          ≥ g.end_time.civil - lagosOffsetMinutes
      · rw [if_pos h1]
        have : ¬ (g.start_time.civil - lagosOffsetMinutes
            < g.end_time.civil - lagosOffsetMinutes) := not_lt.mpr (ge_iff_le.mp h1)
        simp [this]
      · rw [if_neg h1]
        have h1' : g.start_time.civil - lagosOffsetMinutes
            < g.end_time.civil - lagosOffsetMinutes := lt_of_not_ge h1
        by_cases h2 : g.end_time.civil - lagosOffsetMinutes < now
        · rw [if_pos h2]; simp [h1', h2]
        · rw [if_neg h2]; cases ok <;> simp [h2]

/-- Witness for C8: the same request submitted with a UTC tag and with a
New-York tag on its datetimes creates the identical fence. -/
theorem create_geofence_utc_normalization_witness :
    create_geofence { reqGeo with start_time := ⟨reqGeo.start_time.civil, some 0⟩,
                                  end_time := ⟨reqGeo.end_time.civil, some (-300)⟩ }
        "adminA" "ABC123XY" true 1000 dbEmpty
      = create_geofence reqGeo "adminA" "ABC123XY" true 1000 dbEmpty :=
  (create_geofence_utc_normalization reqGeo "adminA" "ABC123XY" true 1000 dbEmpty).1
    (some 0) (some (-300))

/-- Claim C6: the admission gates run in the fixed order fence-lookup,
status, duplicate, containment: a failed lookup (which includes the status
filter) rejects InvalidCode whatever the record store, coordinates and
containment function hold; an existing admission key rejects AlreadyRecorded
for every containment function — in particular when the caller stands
outside the fence; containment is consulted only after the duplicate check
and rejects OutsideGeofence; every rejection leaves the store unchanged;
and a success only appends the one new record. -/
theorem record_attendance_gate_order (now : Int) (code : String)
    (lat long : Rat) (um : String) (db : DB) :
    (∀ (isWithin : Rat → Rat → Geofence → Bool) (commit : CommitOutcome)
        (u : User),
      db.users.find? (fun x => x.user_matric == um) = some u →
      db.geofences.find?
        (fun x => x.fence_code == code && x.status == "active") = none →
      record_attendance isWithin commit now code lat long um db
        = .error .InvalidCode) ∧
    (∀ (isWithin : Rat → Rat → Geofence → Bool) (commit : CommitOutcome)
        (u : User) (g : Geofence) (r : AttendanceRecord),
      db.users.find? (fun x => x.user_matric == um) = some u →
      db.geofences.find?
        (fun x => x.fence_code == code && x.status == "active") = some g →
      db.records.find?
        (fun x => x.matric_fence_code == u.user_matric ++ g.fence_code) = some r →
      record_attendance isWithin commit now code lat long um db
        = .error .AlreadyRecorded) ∧
    (∀ (isWithin : Rat → Rat → Geofence → Bool) (commit : CommitOutcome)
        (u : User) (g : Geofence),
      db.users.find? (fun x => x.user_matric == um) = some u →
      db.geofences.find?
        (fun x => x.fence_code == code && x.status == "active") = some g →
      db.records.find?
        (fun x => x.matric_fence_code == u.user_matric ++ g.fence_code) = none →
      isWithin lat long g = false →
      record_attendance isWithin commit now code lat long um db
        = .error .OutsideGeofence) ∧
    (∀ (isWithin : Rat → Rat → Geofence → Bool) (commit : CommitOutcome)
        (e : AdmissionError),
      record_attendance isWithin commit now code lat long um db = .error e →
      finalDB db (record_attendance isWithin commit now code lat long um db)
        = db) ∧
    (∀ (isWithin : Rat → Rat → Geofence → Bool) (commit : CommitOutcome)
        (u : User) (g : Geofence) (db2 : DB) (msg : String),
      db.users.find? (fun x => x.user_matric == um) = some u →
      db.geofences.find?
        (fun x => x.fence_code == code && x.status == "active") = some g →
      record_attendance isWithin commit now code lat long um db = .ok (db2, msg) →
      db2 = { db with records := db.records ++ [builtRecord u g code now] }) := by
  refine ⟨fun iw c u hu hg => ?_, fun iw c u g r hu hg hr => ?_,
          fun iw c u g hu hg hr hiw => ?_, fun iw c e h => ?_,
          fun iw c u g db2 msg hu hg h => ?_⟩
  · simp [record_attendance, hu, hg]
  · have hst := (find_active_spec hg).2
    simp [record_attendance, hu, hg, pyLower_active_ne_false hst, hr]
  · have hst := (find_active_spec hg).2
    simp [record_attendance, hu, hg, pyLower_active_ne_false hst, hr, hiw]
  · rw [h]; rfl
  · have hst := (find_active_spec hg).2
    simp only [record_attendance, hu, hg, pyLower_active_ne_false hst,
      Bool.false_eq_true, if_false] at h
    cases hr : db.records.find?
        (fun x => x.matric_fence_code == u.user_matric ++ g.fence_code) with
    | some r => rw [hr] at h; simp at h
    | none =>
      rw [hr] at h
      by_cases hiw : iw lat long g = true
      · rw [hiw] at h
        simp only [Bool.not_true, Bool.false_eq_true, if_false] at h
        cases c with
        | success =>
          simp only [Except.ok.injEq, Prod.mk.injEq] at h
          exact h.1.symm
        | integrityError => simp at h
        | otherFailure => simp at h
      · simp only [Bool.not_eq_true] at hiw
        rw [hiw] at h
        simp at h

/-- Witness for C6: alice has already checked in and now stands outside the
fence (the containment function is constantly false); the rejection is
AlreadyRecorded, not OutsideGeofence, and the store is unchanged. -/
theorem record_attendance_gate_order_witness :
    record_attendance (fun _ _ _ => false) .success 500 "abc123xy" 0 0 "u1" dbDup
      = .error .AlreadyRecorded ∧
    AdmissionError.AlreadyRecorded ≠ AdmissionError.OutsideGeofence ∧
    finalDB dbDup
      (record_attendance (fun _ _ _ => false) .success 500 "abc123xy" 0 0 "u1" dbDup)
      = dbDup :=
  ⟨(record_attendance_gate_order 500 "abc123xy" 0 0 "u1" dbDup).2.1
      _ _ aliceUser fenceActive dupRecord rfl rfl rfl,
   by decide,
   (record_attendance_gate_order 500 "abc123xy" 0 0 "u1" dbDup).2.2.2.1
      _ _ .AlreadyRecorded
      ((record_attendance_gate_order 500 "abc123xy" 0 0 "u1" dbDup).2.1
        _ _ aliceUser fenceActive dupRecord rfl rfl rfl)⟩

/-- Claim C9, counterexample: creation with generated code "ABC123XY" stores
the lower-cased "abc123xy" on an active fence, yet an admission request
supplying the code as "ABC123XY" — a casing of that very fence's code — is
rejected with InvalidCode: the lookup is exact, not case-insensitive. -/
theorem fence_code_casing_cex :
    create_geofence reqGeo "adminA" "ABC123XY" true 1000 dbEmpty =
      .ok ({ users := [], geofences := [builtFence reqGeo "adminA" "abc123xy" 1000],
             records := [] },
           "abc123xy", "GEO101") ∧
    (builtFence reqGeo "adminA" "abc123xy" 1000).status = "active" ∧
    record_attendance (fun _ _ _ => true) .success 1000 "ABC123XY" 0 0 "u1"
      { users := [aliceUser],
        geofences := [builtFence reqGeo "adminA" "abc123xy" 1000],
        records := [] }
      = .error .InvalidCode :=
  ⟨rfl, rfl, rfl⟩

/-- Claim C9 (amended): fence codes are lower-cased at storage time, but the
admission lookup compares the supplied code to the stored one by exact
string equality: a supplied code that differs from every stored active
fence's code — be it only in letter casing — is rejected with InvalidCode,
and a fence resolves exactly when some active row carries the supplied
spelling verbatim. -/
theorem fence_code_exact_lookup (now : Int) (code : String) (lat long : Rat)
    (um : String) :
    (∀ (g : GeofenceCreate) (um2 ic : String) (ok : Bool) (now2 : Int)
        (db db2 : DB) (c nm : String),
      create_geofence g um2 ic ok now2 db = .ok (db2, c, nm) →
      c = pyLower ic ∧
      db2.geofences = db.geofences ++ [builtFence g um2 (pyLower ic) now2]) ∧
    (∀ (isWithin : Rat → Rat → Geofence → Bool) (commit : CommitOutcome)
        (db : DB) (u : User),
      db.users.find? (fun x => x.user_matric == um) = some u →
      (∀ g ∈ db.geofences, g.status = "active" → g.fence_code ≠ code) →
      record_attendance isWithin commit now code lat long um db
        = .error .InvalidCode) ∧
    (∀ (isWithin : Rat → Rat → Geofence → Bool) (commit : CommitOutcome)
        (db : DB) (u : User) (g : Geofence),
      db.users.find? (fun x => x.user_matric == um) = some u →
      db.geofences.find?
        (fun x => x.fence_code == code && x.status == "active") = some g →
      record_attendance isWithin commit now code lat long um db
        ≠ .error .InvalidCode) := by
  refine ⟨fun g um2 ic ok now2 db db2 c nm h => ?_,
          fun isWithin commit db u hu hall => ?_,
          fun isWithin commit db u g hu hg => ?_⟩
  · simp only [create_geofence, toUtcViaLagos] at h
    cases hf : db.geofences.find? (fun x => x.name == g.name &&
        dateOfMinutes x.start_time
          == dateOfMinutes (g.start_time.civil - lagosOffsetMinutes)) with
    | some x => rw [hf] at h; simp at h
    | none =>
      rw [hf] at h
      by_cases h1 : g.start_time.civil - lagosOffsetMinutes
          ≥ g.end_time.civil - lagosOffsetMinutes
      · rw [if_pos h1] at h; simp at h
      · rw [if_neg h1] at h
        by_cases h2 : g.end_time.civil - lagosOffsetMinutes < now2
        · rw [if_pos h2] at h; simp at h
        · rw [if_neg h2] at h
          cases ok with
          | false => simp at h
          | true =>
            simp only [if_true, Except.ok.injEq, Prod.mk.injEq] at h
            exact ⟨h.2.1.symm, by rw [← h.1]⟩
  · have hnone : db.geofences.find?
        (fun x => x.fence_code == code && x.status == "active") = none := by
      rw [List.find?_eq_none]
      intro x hx
      simp only [Bool.and_eq_true, beq_iff_eq, not_and]
      intro hc hs
      exact absurd hc (hall x hx hs)
    simp [record_attendance, hu, hnone]
  · have hst := (find_active_spec hg).2
    simp only [record_attendance, hu, hg, pyLower_active_ne_false hst,
      Bool.false_eq_true, if_false]
    cases hr : db.records.find?
        (fun x => x.matric_fence_code == u.user_matric ++ g.fence_code) with
    | some r => simp
    | none =>
      by_cases hiw : isWithin lat long g = true
      · simp only [hiw, Bool.not_true, Bool.false_eq_true, if_false]
        cases commit <;> simp
      · simp only [Bool.not_eq_true] at hiw
        simp [hiw]

/-- Witness for C9 (amended): supplying the stored lower-cased code verbatim
does resolve the fence (the outcome is not InvalidCode), while the stored
code is the lower-casing of the generated one. -/
theorem fence_code_exact_lookup_witness :
    ("abc123xy" = pyLower "ABC123XY" ∧
      ({ users := [], geofences := [builtFence reqGeo "adminA" "abc123xy" 1000],
         records := [] } : DB).geofences
        = dbEmpty.geofences ++ [builtFence reqGeo "adminA" (pyLower "ABC123XY") 1000]) ∧
    record_attendance (fun _ _ _ => true) .success 1000 "abc123xy" 0 0 "u1"
      { users := [aliceUser],
        geofences := [builtFence reqGeo "adminA" "abc123xy" 1000],
        records := [] }
      ≠ .error .InvalidCode :=
  ⟨(fence_code_exact_lookup 1000 "abc123xy" 0 0 "u1").1
      reqGeo "adminA" "ABC123XY" true 1000 dbEmpty _ _ _ rfl,
   (fence_code_exact_lookup 1000 "abc123xy" 0 0 "u1").2.2
      _ _ _ aliceUser (builtFence reqGeo "adminA" "abc123xy" 1000) rfl rfl⟩
